import Mathlib

/-!
Verification development for the Open Graph image endpoint
(`src/pages/api/opengraph/image.ts`).

The file shallowly embeds the request handler: query parameters become
`Option String` fields, every awaited browser operation becomes an
`Except String` outcome supplied by an `Env` record, and the handler is a
pure function from `Env × Query` to a `Response` together with a `Trace`
of the observable side effects (browser launches, closes, viewport and
screenshot calls).  The JavaScript regular expressions of the allow-list
and `parseInt` are modelled as executable functions on code points.
-/

namespace Opengraph

/-- Code points of a string; the regex matchers below work on code points. -/
def strCodes (s : String) : List Nat := s.data.map Char.toNat

/-- ASCII case folding of one code point.  The source's regexes carry the `i`
flag and contain only ASCII characters; for a non-`u` JavaScript regex this
canonicalisation folds exactly the ASCII letters. -/
def lowerCode (n : Nat) : Nat := if 65 ≤ n ∧ n ≤ 90 then n + 32 else n

/-- Case-folded code points of a string. -/
def foldCodes (s : String) : List Nat := s.data.map (fun c => lowerCode c.toNat)

/-- The `[\w-]` character class of the source's regexes
(`\w` is `[A-Za-z0-9_]` for a non-`u` regex, plus the dash). -/
def isWordDash (n : Nat) : Bool :=
  (decide (48 ≤ n) && decide (n ≤ 57)) || (decide (65 ≤ n) && decide (n ≤ 90)) ||
    (decide (97 ≤ n) && decide (n ≤ 122)) || decide (n = 95) || decide (n = 45)

/-- The `\d` character class. -/
def isDigitCode (n : Nat) : Bool := decide (48 ≤ n) && decide (n ≤ 57)

/-- Does `l` start with the literal `p`? -/
def startsWithC : List Nat → List Nat → Bool
  | [], _ => true
  | _ :: _, [] => false
  | p :: ps, c :: cs => decide (p = c) && startsWithC ps cs

/-- Strip the literal `p` from the front of `l`. -/
def stripC : List Nat → List Nat → Option (List Nat)
  | [], l => some l
  | _ :: _, [] => none
  | p :: ps, c :: cs => if p = c then stripC ps cs else none

/-- Existential matcher for `X+` followed by the literal `lit`: true iff some
split of `l` puts one or more characters satisfying `p` first and then `lit`
as a prefix of the remainder (exactly the backtracking semantics of
`X+lit` inside `RegExp.test`). -/
def repThen (p : Nat → Bool) (lit : List Nat) : List Nat → Bool
  | [] => false
  | c :: cs => p c && (startsWithC lit cs || repThen p lit cs)

/-- The three allow-list regexes held by `allowedHostnames` in the source:
`/^https:\/\/([\w-]+\.)?okpc\.app\//i`, `/^https:\/\/[\w-]+-okpc\.vercel\.app\//i`
and (outside production) `/^http:\/\/localhost(:\d+)?\//i`. -/
inductive Pattern where
  | okpc
  | vercel
  | localhost
deriving DecidableEq

/-- `RegExp.test` of each pattern on the case-folded code points of the url.
All three regexes are anchored with `^` only, so a match is a prefix match.
`([\w-]+\.)?okpc\.app\/` is `okpc.app/` directly or `[\w-]+` then `.okpc.app/`. -/
def Pattern.test : Pattern → List Nat → Bool
  | .okpc, l =>
    match stripC (strCodes "https://") l with
    | none => false
    | some r =>
      startsWithC (strCodes "okpc.app/") r || repThen isWordDash (strCodes ".okpc.app/") r
  | .vercel, l =>
    match stripC (strCodes "https://") l with
    | none => false
    | some r => repThen isWordDash (strCodes "-okpc.vercel.app/") r
  | .localhost, l =>
    match stripC (strCodes "http://localhost") l with
    | none => false
    | some r =>
      match r with
      | 47 :: _ => true
      | 58 :: rest => repThen isDigitCode (strCodes "/") rest
      | _ => false

/-- The `allowedHostnames` array: the two deployment patterns, with the
localhost pattern pushed when `process.env.NODE_ENV !== "production"`. -/
def allowedHostnames (nodeEnv : String) : List Pattern :=
  if nodeEnv ≠ "production" then [.okpc, .vercel, .localhost] else [.okpc, .vercel]

/-- `allowedHostnames.some((hostname) => hostname.test(url))`. -/
def matchesAllowed (nodeEnv : String) (url : String) : Bool :=
  (allowedHostnames nodeEnv).any (fun p => Pattern.test p (foldCodes url))

/-- JavaScript whitespace skipped by `parseInt` (the relevant code points). -/
def isJsSpace (c : Char) : Bool :=
  decide (c.toNat = 9) || decide (c.toNat = 10) || decide (c.toNat = 11) ||
    decide (c.toNat = 12) || decide (c.toNat = 13) || decide (c.toNat = 32) ||
    decide (c.toNat = 160) || decide (c.toNat = 8232) || decide (c.toNat = 8233) ||
    decide (c.toNat = 65279)

/-- Value of one digit character in the given radix, if it is one. -/
def digitValue (radix : Nat) (c : Char) : Option Nat :=
  let n := c.toNat
  if 48 ≤ n ∧ n ≤ 57 then (if n - 48 < radix then some (n - 48) else none)
  else if 97 ≤ n ∧ n ≤ 122 then (if n - 87 < radix then some (n - 87) else none)
  else if 65 ≤ n ∧ n ≤ 90 then (if n - 55 < radix then some (n - 55) else none)
  else none

/-- Accumulate the longest digit prefix; `none` means no digit was seen. -/
def takeDigits (radix : Nat) (acc : Option Nat) : List Char → Option Nat
  | [] => acc
  | c :: cs =>
    match digitValue radix c with
    | some d => takeDigits radix (some (acc.getD 0 * radix + d)) cs
    | none => acc

/-- Optional leading sign. -/
def parseSigned : List Char → Int × List Char
  | '-' :: r => (-1, r)
  | '+' :: r => (1, r)
  | l => (1, l)

/-- Radix detection: a `0x`/`0X` prefix selects 16, otherwise 10. -/
def parseRadix : List Char → Nat × List Char
  | '0' :: 'x' :: r => (16, r)
  | '0' :: 'X' :: r => (16, r)
  | l => (10, l)

/-- Model of JavaScript `parseInt(s)` with the radix argument omitted:
skip whitespace, optional sign, optional hex prefix, then the longest digit
prefix; no digit yields `NaN`, modelled as `none`.  Values are kept as exact
integers. -/
def parseIntJS (s : String) : Option Int :=
  let l := s.data.dropWhile isJsSpace
  let sl := parseSigned l
  let rl := parseRadix sl.2
  match takeDigits rl.1 none rl.2 with
  | none => none
  | some n => some (sl.1 * (n : Int))

/-- `parseInt` applied to a possibly absent query parameter
(`parseInt(undefined)` is `NaN`). -/
def parseIntOpt (o : Option String) : Option Int :=
  match o with
  | none => none
  | some s => parseIntJS s

/-- JavaScript `x || d` for a number `x`: `NaN` and `0` are falsy. -/
def jsOrInt (o : Option Int) (d : Int) : Int :=
  match o with
  | none => d
  | some v => if v = 0 then d else v

/-- The `allowedFormats` array. -/
def allowedFormats : List String := ["png", "jpeg", "webp"]

/-- Resolution of the `format` parameter: kept when it is one of the allowed
formats, `"png"` otherwise (including when absent). -/
def resolveFormat (o : Option String) : String :=
  match o with
  | some f => if allowedFormats.contains f then f else "png"
  | none => "png"

/-- The `Cache-Control` header value built on success:
`` `s-maxage=${60 * 60 * 8}, stale-while-revalidate=${60 * 60 * 24}` ``. -/
def cacheControlHeader : String :=
  "s-maxage=" ++ toString (60 * 60 * 8) ++ ", stale-while-revalidate=" ++ toString (60 * 60 * 24)

/-- The query parameters of a request, each a single string or absent. -/
structure Query where
  url : Option String := none
  fallback : Option String := none
  pixelDensity : Option String := none
  format : Option String := none
  quality : Option String := none

/-- The environment of one request: `NODE_ENV` plus the outcome of every
awaited browser operation (an error value is the stringified exception the
operation rejects with).  `elementFound` is the result of
`page.$("#opengraph-image")` after the selector wait succeeded. -/
structure Env where
  nodeEnv : String
  launch : Except String Unit
  newPage : Except String Unit
  setViewport : Except String Unit
  goto : Except String Unit
  waitForNetworkIdle : Except String Unit
  waitForSelector : Except String Unit
  elementFound : Bool
  screenshot : Except String (List Nat)

/-- The viewport argument of `page.setViewport`. -/
structure Viewport where
  width : Nat
  height : Nat
  deviceScaleFactor : Int
deriving DecidableEq

/-- Side effects produced inside the `try` block: the value of the `browser`
variable when the `finally` clause runs, the number of browser instances
successfully created, and the recorded viewport / screenshot calls. -/
structure PipeFx where
  browser : Option Unit := none
  created : Nat := 0
  viewport : Option Viewport := none
  screenshotArgs : Option (String × Option Int) := none
deriving DecidableEq

/-- Observable per-request effect counters and calls. -/
structure Trace where
  launchCalls : Nat := 0
  created : Nat := 0
  closes : Nat := 0
  viewport : Option Viewport := none
  screenshotArgs : Option (String × Option Int) := none
deriving DecidableEq

/-- The possible responses of the handler. -/
inductive Response where
  | jsonError (status : Nat) (code : String) (message : Option String)
  | redirect (location : String)
  | image (cacheControl : String) (contentType : String) (body : List Nat)
deriving DecidableEq

/-- `parseInt(req.query.pixelDensity as string) || 1`. -/
def resolvePixelDensity (q : Query) : Int := jsOrInt (parseIntOpt q.pixelDensity) 1

/-- `parseInt(req.query.quality as string) || 70`. -/
def resolveQuality (q : Query) : Int := jsOrInt (parseIntOpt q.quality) 70

/-- The `try` block of the handler, from `getBrowserInstance()` up to the
screenshot: each awaited step either resolves or throws, a throw aborts the
rest of the block, and the accumulated effects are returned alongside the
result so the `finally` clause can be modelled on them.  A missing
`#opengraph-image` element throws
`new Error("No #opengraph-image element found at path")`, whose stringified
form carries the `Error: ` prefix. -/
def tryBody (env : Env) (pd : Int) (fmt : String) (qual : Int) :
    Except String (List Nat) × PipeFx :=
  match env.launch with
  | .error e => (.error e, {})
  | .ok _ =>
    let fx1 : PipeFx := { browser := some (), created := 1 }
    match env.newPage with
    | .error e => (.error e, fx1)
    | .ok _ =>
      let fx2 : PipeFx :=
        { fx1 with viewport := some { width := 1280, height := 720, deviceScaleFactor := pd } }
      match env.setViewport with
      | .error e => (.error e, fx2)
      | .ok _ =>
        match env.goto with
        | .error e => (.error e, fx2)
        | .ok _ =>
          match env.waitForNetworkIdle with
          | .error e => (.error e, fx2)
          | .ok _ =>
            match env.waitForSelector with
            | .error e => (.error e, fx2)
            | .ok _ =>
              if env.elementFound then
                let args : String × Option Int :=
                  (fmt, if fmt = "png" then none else some qual)
                let fx3 : PipeFx := { fx2 with screenshotArgs := some args }
                match env.screenshot with
                | .error e => (.error e, fx3)
                | .ok img => (.ok img, fx3)
              else
                (.error "Error: No #opengraph-image element found at path", fx2)

/-- The post-validation part of the handler: run the `try` block, convert its
outcome through the `catch` clause (redirect when the `fallback` string is
truthy, a 500 `UNEXPECTED_ERROR` body otherwise) and apply the `finally`
clause (`if (browser !== null) await browser.close()`). -/
def mainBranch (env : Env) (q : Query) : Response × Trace :=
  let fmt := resolveFormat q.format
  let rf := tryBody env (resolvePixelDensity q) fmt (resolveQuality q)
  ((match rf.1 with
    | .ok img => Response.image cacheControlHeader ("image/" ++ fmt) img
    | .error e =>
      match q.fallback with
      | some f =>
        if f = "" then Response.jsonError 500 "UNEXPECTED_ERROR" (some e)
        else Response.redirect f
      | none => Response.jsonError 500 "UNEXPECTED_ERROR" (some e)),
   { launchCalls := 1
     created := rf.2.created
     closes :=
       match rf.2.browser with
       | some _ => 1
       | none => 0
     viewport := rf.2.viewport
     screenshotArgs := rf.2.screenshotArgs })

/-- The request handler.  `!url` is true for an absent and for an empty
string parameter, so both short-circuit with `MISSING_URL`; a url matching
no allow-list pattern short-circuits with `INVALID_URL`; otherwise the
browser pipeline runs. -/
def handler (env : Env) (q : Query) : Response × Trace :=
  match q.url with
  | none => (Response.jsonError 400 "MISSING_URL" none, {})
  | some url =>
    if url = "" then (Response.jsonError 400 "MISSING_URL" none, {})
    else if matchesAllowed env.nodeEnv url = false then
      (Response.jsonError 400 "INVALID_URL" none, {})
    else mainBranch env q

/-- An environment in which every pipeline step succeeds. -/
def envOK : Env :=
  { nodeEnv := "development"
    launch := .ok ()
    newPage := .ok ()
    setViewport := .ok ()
    goto := .ok ()
    waitForNetworkIdle := .ok ()
    waitForSelector := .ok ()
    elementFound := true
    screenshot := .ok [137, 80, 78, 71] }

/-- A request with a valid url and no other parameters. -/
def qBasic : Query := { url := some "https://okpc.app/x" }

/-! ## Lemmas about the try block -/

/-- The `browser` variable is non-null when `finally` runs exactly when the
launch resolved. -/
lemma tryBody_browser (env : Env) (pd : Int) (fmt : String) (qual : Int) :
    (tryBody env pd fmt qual).2.browser =
      (match env.launch with
       | Except.ok _ => some ()
       | Except.error _ => none) := by
  unfold tryBody
  cases env.launch with
  | error e => rfl
  | ok u =>
    cases env.newPage with
    | error e => rfl
    | ok u =>
      cases env.setViewport with
      | error e => rfl
      | ok u =>
        cases env.goto with
        | error e => rfl
        | ok u =>
          cases env.waitForNetworkIdle with
          | error e => rfl
          | ok u =>
            cases env.waitForSelector with
            | error e => rfl
            | ok u =>
              cases env.elementFound with
              | false => rfl
              | true =>
                cases env.screenshot with
                | error e => rfl
                | ok img => rfl

/-- Exactly one browser instance is created when the launch resolved, none
otherwise. -/
lemma tryBody_created (env : Env) (pd : Int) (fmt : String) (qual : Int) :
    (tryBody env pd fmt qual).2.created =
      (match env.launch with
       | Except.ok _ => 1
       | Except.error _ => 0) := by
  unfold tryBody
  cases env.launch with
  | error e => rfl
  | ok u =>
    cases env.newPage with
    | error e => rfl
    | ok u =>
      cases env.setViewport with
      | error e => rfl
      | ok u =>
        cases env.goto with
        | error e => rfl
        | ok u =>
          cases env.waitForNetworkIdle with
          | error e => rfl
          | ok u =>
            cases env.waitForSelector with
            | error e => rfl
            | ok u =>
              cases env.elementFound with
              | false => rfl
              | true =>
                cases env.screenshot with
                | error e => rfl
                | ok img => rfl

/-- Once a page exists, the viewport call is recorded with the fixed
dimensions and the given device scale factor, whatever happens later. -/
lemma tryBody_viewport (env : Env) (pd : Int) (fmt : String) (qual : Int)
    (h1 : env.launch = Except.ok ()) (h2 : env.newPage = Except.ok ()) :
    (tryBody env pd fmt qual).2.viewport =
      some { width := 1280, height := 720, deviceScaleFactor := pd } := by
  unfold tryBody
  rw [h1, h2]
  cases env.setViewport with
  | error e => rfl
  | ok u =>
    cases env.goto with
    | error e => rfl
    | ok u =>
      cases env.waitForNetworkIdle with
      | error e => rfl
      | ok u =>
        cases env.waitForSelector with
        | error e => rfl
        | ok u =>
          cases env.elementFound with
          | false => rfl
          | true =>
            cases env.screenshot with
            | error e => rfl
            | ok img => rfl

/-- When the pipeline reaches the screenshot call, its arguments are the
resolved format and, for non-png formats only, the effective quality. -/
lemma tryBody_screenshotArgs (env : Env) (pd : Int) (fmt : String) (qual : Int)
    (h1 : env.launch = Except.ok ()) (h2 : env.newPage = Except.ok ())
    (h3 : env.setViewport = Except.ok ()) (h4 : env.goto = Except.ok ())
    (h5 : env.waitForNetworkIdle = Except.ok ())
    (h6 : env.waitForSelector = Except.ok ()) (hel : env.elementFound = true) :
    (tryBody env pd fmt qual).2.screenshotArgs =
      some (fmt, if fmt = "png" then none else some qual) := by
  unfold tryBody
  rw [h1, h2, h3, h4, h5, h6, hel]
  cases env.screenshot with
  | error e => rfl
  | ok img => rfl

/-- Full description of the try block on an all-success environment. -/
lemma tryBody_success (env : Env) (pd : Int) (fmt : String) (qual : Int)
    (img : List Nat)
    (h1 : env.launch = Except.ok ()) (h2 : env.newPage = Except.ok ())
    (h3 : env.setViewport = Except.ok ()) (h4 : env.goto = Except.ok ())
    (h5 : env.waitForNetworkIdle = Except.ok ())
    (h6 : env.waitForSelector = Except.ok ()) (hel : env.elementFound = true)
    (h7 : env.screenshot = Except.ok img) :
    tryBody env pd fmt qual =
      (Except.ok img,
       { browser := some ()
         created := 1
         viewport := some { width := 1280, height := 720, deviceScaleFactor := pd }
         screenshotArgs := some (fmt, if fmt = "png" then none else some qual) }) := by
  unfold tryBody
  rw [h1, h2, h3, h4, h5, h6, hel, h7]
  rfl

/-! ## Lemmas about the handler's control flow -/

/-- A present, non-empty, allow-listed url reaches the browser pipeline. -/
lemma handler_eq_mainBranch (env : Env) (q : Query) (u : String)
    (hu : q.url = some u) (hne : u ≠ "")
    (hm : matchesAllowed env.nodeEnv u = true) :
    handler env q = mainBranch env q := by
  unfold handler
  rw [hu]
  simp [hne, hm]

/-- In the pipeline branch the closes counter mirrors the nullness of the
`browser` variable and the creations counter mirrors the launch outcome. -/
lemma mainBranch_closes_eq_created (env : Env) (q : Query) :
    (mainBranch env q).2.closes = (mainBranch env q).2.created := by
  simp only [mainBranch]
  rw [tryBody_browser, tryBody_created]
  cases env.launch with
  | error e => rfl
  | ok u => rfl

/-- A launch that resolves is closed exactly once in the pipeline branch. -/
lemma mainBranch_closes_one (env : Env) (q : Query)
    (h : env.launch = Except.ok ()) : (mainBranch env q).2.closes = 1 := by
  simp only [mainBranch]
  rw [tryBody_browser, h]

/-! ## Claim theorems -/

/-- C1: per request the number of browser-close calls equals the number of
browser instances successfully created — zero for requests that fail
validation, and exactly one close on every exit path (success, redirect,
500, any mid-pipeline exception) once the launch resolved. -/
theorem close_count_matches_create_count (env : Env) (q : Query) :
    (handler env q).2.closes = (handler env q).2.created ∧
    (q.url = none → (handler env q).2.created = 0 ∧ (handler env q).2.closes = 0) ∧
    (∀ u, q.url = some u → u ≠ "" → matchesAllowed env.nodeEnv u = true →
      env.launch = Except.ok () → (handler env q).2.closes = 1) := by
  refine ⟨?_, ?_, ?_⟩
  · unfold handler
    cases q.url with
    | none => rfl
    | some url =>
      by_cases hne : url = ""
      · simp [hne]
      · by_cases hm : matchesAllowed env.nodeEnv url = false
        · simp [hne, hm]
        · simp only [hne, hm, if_false, if_neg]
          simp [mainBranch_closes_eq_created]
  · intro h
    unfold handler
    rw [h]
    exact ⟨rfl, rfl⟩
  · intro u hu hne hm hl
    rw [handler_eq_mainBranch env q u hu hne hm]
    exact mainBranch_closes_one env q hl

/-- Witness for C1 at a concrete all-success request. -/
theorem close_count_matches_create_count_witness :
    (handler envOK qBasic).2.closes = 1 :=
  (close_count_matches_create_count envOK qBasic).2.2 "https://okpc.app/x" rfl
    (by decide) (by decide) rfl

/-- C3: a request without a `url` parameter yields 400 `MISSING_URL` and no
browser is ever launched. -/
theorem missing_url_short_circuit (env : Env) (q : Query) (h : q.url = none) :
    (handler env q).1 = Response.jsonError 400 "MISSING_URL" none ∧
    (handler env q).2.launchCalls = 0 ∧ (handler env q).2.created = 0 := by
  unfold handler
  rw [h]
  exact ⟨rfl, rfl, rfl⟩

/-- Witness for C3: the empty request. -/
theorem missing_url_short_circuit_witness :
    (handler envOK {}).1 = Response.jsonError 400 "MISSING_URL" none ∧
    (handler envOK {}).2.launchCalls = 0 ∧ (handler envOK {}).2.created = 0 :=
  missing_url_short_circuit envOK {} rfl

/-- When the try block throws, the catch clause picks a redirect or the 500
body depending on the truthiness of the `fallback` string. -/
lemma mainBranch_error (env : Env) (q : Query) (e : String)
    (hfail : (tryBody env (resolvePixelDensity q) (resolveFormat q.format)
        (resolveQuality q)).1 = Except.error e) :
    (mainBranch env q).1 =
      (match q.fallback with
       | some f =>
         if f = "" then Response.jsonError 500 "UNEXPECTED_ERROR" (some e)
         else Response.redirect f
       | none => Response.jsonError 500 "UNEXPECTED_ERROR" (some e)) := by
  simp only [mainBranch]
  rw [hfail]

/-- On an all-success environment the pipeline branch returns the image with
cache and content-type headers and records one launch, one creation, one
close, the viewport call and the screenshot call. -/
lemma mainBranch_success (env : Env) (q : Query) (img : List Nat)
    (h1 : env.launch = Except.ok ()) (h2 : env.newPage = Except.ok ())
    (h3 : env.setViewport = Except.ok ()) (h4 : env.goto = Except.ok ())
    (h5 : env.waitForNetworkIdle = Except.ok ())
    (h6 : env.waitForSelector = Except.ok ()) (hel : env.elementFound = true)
    (h7 : env.screenshot = Except.ok img) :
    mainBranch env q =
      (Response.image cacheControlHeader ("image/" ++ resolveFormat q.format) img,
       { launchCalls := 1
         created := 1
         closes := 1
         viewport := some { width := 1280, height := 720,
                            deviceScaleFactor := resolvePixelDensity q }
         screenshotArgs :=
           some (resolveFormat q.format,
             if resolveFormat q.format = "png" then none
             else some (resolveQuality q)) }) := by
  simp only [mainBranch]
  rw [tryBody_success env (resolvePixelDensity q) (resolveFormat q.format)
      (resolveQuality q) img h1 h2 h3 h4 h5 h6 hel h7]

/-- C2: after validation passes, a failure at any pipeline step yields a
redirect to the fallback string when it is present and non-empty, and a 500
`UNEXPECTED_ERROR` body carrying the stringified error otherwise (absent or
empty fallback). -/
theorem failure_fallback_or_500 (env : Env) (q : Query) (u e : String)
    (hu : q.url = some u) (hne : u ≠ "")
    (hm : matchesAllowed env.nodeEnv u = true)
    (hfail : (tryBody env (resolvePixelDensity q) (resolveFormat q.format)
        (resolveQuality q)).1 = Except.error e) :
    (∀ f, q.fallback = some f → f ≠ "" →
      (handler env q).1 = Response.redirect f) ∧
    (q.fallback = none →
      (handler env q).1 = Response.jsonError 500 "UNEXPECTED_ERROR" (some e)) ∧
    (q.fallback = some "" →
      (handler env q).1 = Response.jsonError 500 "UNEXPECTED_ERROR" (some e)) := by
  rw [handler_eq_mainBranch env q u hu hne hm]
  rw [mainBranch_error env q e hfail]
  refine ⟨?_, ?_, ?_⟩
  · intro f hf hfne
    rw [hf]
    simp [hfne]
  · intro hf
    rw [hf]
  · intro hf
    rw [hf]
    simp

/-- An environment whose navigation fails. -/
def envGotoFail : Env := { envOK with goto := .error "Error: net::ERR_CONNECTION_REFUSED" }

/-- A valid request carrying a fallback image url. -/
def qFallback : Query :=
  { url := some "https://okpc.app/x", fallback := some "https://example.com/default.png" }

/-- Witness for C2: a navigation failure with a fallback redirects to it. -/
theorem failure_fallback_or_500_witness :
    (handler envGotoFail qFallback).1 =
      Response.redirect "https://example.com/default.png" :=
  (failure_fallback_or_500 envGotoFail qFallback "https://okpc.app/x"
      "Error: net::ERR_CONNECTION_REFUSED" rfl (by decide) (by decide)
      rfl).1 "https://example.com/default.png" rfl (by decide)

/-- C9: the fallback string is never validated — any non-empty string
supplied by the caller becomes the redirect target verbatim on a
post-validation failure, with no allow-list check applied to it. -/
theorem fallback_not_validated_open_redirect (env : Env) (q : Query)
    (u e f : String)
    (hu : q.url = some u) (hne : u ≠ "")
    (hm : matchesAllowed env.nodeEnv u = true)
    (hfail : (tryBody env (resolvePixelDensity q) (resolveFormat q.format)
        (resolveQuality q)).1 = Except.error e)
    (hf : q.fallback = some f) (hfne : f ≠ "") :
    (handler env q).1 = Response.redirect f := by
  rw [handler_eq_mainBranch env q u hu hne hm]
  rw [mainBranch_error env q e hfail]
  rw [hf]
  simp [hfne]

/-- An environment in which the target element never appears. -/
def envNoElement : Env := { envOK with elementFound := false }

/-- A valid request whose fallback is an attacker-chosen foreign url. -/
def qEvilFallback : Query :=
  { url := some "https://okpc.app/x", fallback := some "http://evil.example/phish" }

/-- Witness for C9: the redirect target matches no allow-list pattern in any
environment, yet the handler redirects to it. -/
theorem fallback_not_validated_open_redirect_witness :
    matchesAllowed "production" "http://evil.example/phish" = false ∧
    matchesAllowed "development" "http://evil.example/phish" = false ∧
    (handler envNoElement qEvilFallback).1 =
      Response.redirect "http://evil.example/phish" :=
  ⟨by decide, by decide,
    fallback_not_validated_open_redirect envNoElement qEvilFallback
      "https://okpc.app/x" "Error: No #opengraph-image element found at path"
      "http://evil.example/phish" rfl (by decide) (by decide) rfl rfl
      (by decide)⟩

/-- The pipeline branch always records exactly one call of
`getBrowserInstance`. -/
lemma mainBranch_launchCalls (env : Env) (q : Query) :
    (mainBranch env q).2.launchCalls = 1 := by
  simp only [mainBranch]

/-- C4 counterexample: the empty string is a present url value that matches
no allow-list pattern, yet the handler answers `MISSING_URL`, not
`INVALID_URL`, because the `!url` guard also fires on the empty string. -/
theorem empty_url_yields_missing_not_invalid :
    matchesAllowed envOK.nodeEnv "" = false ∧
    (handler envOK { url := some "" }).1 = Response.jsonError 400 "MISSING_URL" none ∧
    (handler envOK { url := some "" }).1 ≠ Response.jsonError 400 "INVALID_URL" none := by
  refine ⟨by decide, rfl, by decide⟩

/-- C4 (amended): for every present non-empty url value, no pattern matching
yields 400 `INVALID_URL` with no browser work, a match lets validation pass
into the pipeline, and the localhost pattern is allow-listed exactly outside
production.  (A present but empty url instead yields `MISSING_URL`.) -/
theorem url_validation_behaviour (env : Env) (q : Query) (u : String)
    (hu : q.url = some u) (hne : u ≠ "") :
    (matchesAllowed env.nodeEnv u = false →
      (handler env q).1 = Response.jsonError 400 "INVALID_URL" none ∧
      (handler env q).2.launchCalls = 0) ∧
    (matchesAllowed env.nodeEnv u = true →
      (handler env q).2.launchCalls = 1) ∧
    (Pattern.localhost ∈ allowedHostnames env.nodeEnv ↔ env.nodeEnv ≠ "production") := by
  refine ⟨?_, ?_, ?_⟩
  · intro hm
    unfold handler
    rw [hu]
    simp [hne, hm]
  · intro hm
    rw [handler_eq_mainBranch env q u hu hne hm]
    exact mainBranch_launchCalls env q
  · by_cases hp : env.nodeEnv = "production"
    · simp [allowedHostnames, hp]
    · simp [allowedHostnames, hp]

/-- Witness for C4 (amended): a valid url reaches the pipeline. -/
theorem url_validation_behaviour_witness :
    (handler envOK qBasic).2.launchCalls = 1 :=
  (url_validation_behaviour envOK qBasic "https://okpc.app/x" rfl
    (by decide)).2.1 (by decide)

/-- A valid request with a negative `pixelDensity`. -/
def qNegDensity : Query :=
  { url := some "https://okpc.app/x", pixelDensity := some "-2" }

/-- C5 counterexample: `pixelDensity=-2` parses to the non-positive integer
−2, but the device scale factor applied to the viewport is −2, not the 1 the
claim demands — `parseInt(x) || 1` only replaces `NaN` and `0`. -/
theorem negative_pixel_density_passes_through :
    parseIntOpt qNegDensity.pixelDensity = some (-2) ∧
    (-2 : Int) ≤ 0 ∧
    (handler envOK qNegDensity).2.viewport =
      some { width := 1280, height := 720, deviceScaleFactor := -2 } ∧
    (handler envOK qNegDensity).2.viewport ≠
      some { width := 1280, height := 720, deviceScaleFactor := 1 } := by
  refine ⟨by decide, by decide, by decide, by decide⟩

/-- C5 (amended): once a page exists, the viewport is the fixed 1280×720 with
device scale factor 1 when `pixelDensity` fails to parse or parses to 0, and
the parsed value otherwise — including non-positive parsed values, which are
passed through unchanged. -/
theorem pixel_density_resolution (env : Env) (q : Query) (u : String)
    (hu : q.url = some u) (hne : u ≠ "")
    (hm : matchesAllowed env.nodeEnv u = true)
    (h1 : env.launch = Except.ok ()) (h2 : env.newPage = Except.ok ()) :
    ((parseIntOpt q.pixelDensity = none ∨ parseIntOpt q.pixelDensity = some 0) →
      (handler env q).2.viewport =
        some { width := 1280, height := 720, deviceScaleFactor := 1 }) ∧
    (∀ v : Int, parseIntOpt q.pixelDensity = some v → v ≠ 0 →
      (handler env q).2.viewport =
        some { width := 1280, height := 720, deviceScaleFactor := v }) := by
  have hvp : (handler env q).2.viewport =
      some { width := 1280, height := 720,
             deviceScaleFactor := resolvePixelDensity q } := by
    rw [handler_eq_mainBranch env q u hu hne hm]
    simp only [mainBranch]
    rw [tryBody_viewport env (resolvePixelDensity q) (resolveFormat q.format)
        (resolveQuality q) h1 h2]
  constructor
  · intro h
    rw [hvp]
    unfold resolvePixelDensity
    rcases h with h | h
    · rw [h]
      rfl
    · rw [h]
      rfl
  · intro v hv hvne
    rw [hvp]
    unfold resolvePixelDensity
    rw [hv]
    simp [jsOrInt, hvne]

/-- A valid request with `pixelDensity=3`. -/
def qDensityThree : Query :=
  { url := some "https://okpc.app/x", pixelDensity := some "3" }

/-- Witness for C5 (amended). -/
theorem pixel_density_resolution_witness :
    (handler envOK qDensityThree).2.viewport =
      some { width := 1280, height := 720, deviceScaleFactor := 3 } :=
  (pixel_density_resolution envOK qDensityThree "https://okpc.app/x" rfl
    (by decide) (by decide) rfl rfl).2 3 (by decide) (by decide)

/-- A valid jpeg request with `quality=0`. -/
def qZeroQuality : Query :=
  { url := some "https://okpc.app/x", format := some "jpeg", quality := some "0" }

/-- C6 counterexample: `quality=0` parses to the integer 0, which lies in the
documented 0–100 range, yet the screenshot encoder receives quality 70 —
`parseInt(x) || 70` treats 0 as falsy. -/
theorem zero_quality_falls_back_to_default :
    parseIntOpt qZeroQuality.quality = some 0 ∧
    ((0 : Int) ≤ 0 ∧ (0 : Int) ≤ 100) ∧
    (handler envOK qZeroQuality).2.screenshotArgs = some ("jpeg", some 70) ∧
    (handler envOK qZeroQuality).2.screenshotArgs ≠ some ("jpeg", some 0) := by
  refine ⟨by decide, by decide, by decide, by decide⟩

/-- C6 (amended): for a lossy resolved format, the quality handed to the
screenshot call is 70 when the `quality` parameter fails to parse or parses
to 0, and the parsed value otherwise (no 0–100 range check is applied). -/
theorem quality_resolution (env : Env) (q : Query) (u : String)
    (hu : q.url = some u) (hne : u ≠ "")
    (hm : matchesAllowed env.nodeEnv u = true)
    (h1 : env.launch = Except.ok ()) (h2 : env.newPage = Except.ok ())
    (h3 : env.setViewport = Except.ok ()) (h4 : env.goto = Except.ok ())
    (h5 : env.waitForNetworkIdle = Except.ok ())
    (h6 : env.waitForSelector = Except.ok ()) (hel : env.elementFound = true)
    (hfmt : resolveFormat q.format ≠ "png") :
    ((parseIntOpt q.quality = none ∨ parseIntOpt q.quality = some 0) →
      (handler env q).2.screenshotArgs = some (resolveFormat q.format, some 70)) ∧
    (∀ v : Int, parseIntOpt q.quality = some v → v ≠ 0 →
      (handler env q).2.screenshotArgs = some (resolveFormat q.format, some v)) := by
  have hsa : (handler env q).2.screenshotArgs =
      some (resolveFormat q.format, some (resolveQuality q)) := by
    rw [handler_eq_mainBranch env q u hu hne hm]
    simp only [mainBranch]
    rw [tryBody_screenshotArgs env (resolvePixelDensity q) (resolveFormat q.format)
        (resolveQuality q) h1 h2 h3 h4 h5 h6 hel]
    simp [hfmt]
  constructor
  · intro h
    rw [hsa]
    unfold resolveQuality
    rcases h with h | h
    · rw [h]
      rfl
    · rw [h]
      rfl
  · intro v hv hvne
    rw [hsa]
    unfold resolveQuality
    rw [hv]
    simp [jsOrInt, hvne]

/-- A valid jpeg request with `quality=85`. -/
def qJpegQuality : Query :=
  { url := some "https://okpc.app/x", format := some "jpeg", quality := some "85" }

/-- Witness for C6 (amended). -/
theorem quality_resolution_witness :
    (handler envOK qJpegQuality).2.screenshotArgs = some ("jpeg", some 85) :=
  (quality_resolution envOK qJpegQuality "https://okpc.app/x" rfl (by decide)
    (by decide) rfl rfl rfl rfl rfl rfl rfl (by decide)).2 85 (by decide)
    (by decide)

/-- C7: the resolved format is the `format` parameter when it is one of
{png, jpeg, webp} and png otherwise (including when absent); on success the
content type is `image/<resolved format>`; png screenshots carry no quality
argument while other formats carry the effective quality. -/
theorem format_resolution_and_content_type (env : Env) (q : Query)
    (u : String) (img : List Nat)
    (hu : q.url = some u) (hne : u ≠ "")
    (hm : matchesAllowed env.nodeEnv u = true)
    (h1 : env.launch = Except.ok ()) (h2 : env.newPage = Except.ok ())
    (h3 : env.setViewport = Except.ok ()) (h4 : env.goto = Except.ok ())
    (h5 : env.waitForNetworkIdle = Except.ok ())
    (h6 : env.waitForSelector = Except.ok ()) (hel : env.elementFound = true)
    (h7 : env.screenshot = Except.ok img) :
    (handler env q).1 =
      Response.image cacheControlHeader ("image/" ++ resolveFormat q.format) img ∧
    (∀ f, q.format = some f → allowedFormats.contains f = true →
      resolveFormat q.format = f) ∧
    (q.format = none → resolveFormat q.format = "png") ∧
    (∀ f, q.format = some f → allowedFormats.contains f = false →
      resolveFormat q.format = "png") ∧
    (handler env q).2.screenshotArgs =
      some (resolveFormat q.format,
        if resolveFormat q.format = "png" then none else some (resolveQuality q)) := by
  have hmain := mainBranch_success env q img h1 h2 h3 h4 h5 h6 hel h7
  rw [handler_eq_mainBranch env q u hu hne hm, hmain]
  refine ⟨rfl, ?_, ?_, ?_, rfl⟩
  · intro f hf hcont
    unfold resolveFormat
    rw [hf]
    have hmem : f ∈ allowedFormats := by simpa using hcont
    simp [hmem]
  · intro hf
    unfold resolveFormat
    rw [hf]
  · intro f hf hcont
    unfold resolveFormat
    rw [hf]
    have hmem : f ∉ allowedFormats := by simpa using hcont
    simp [hmem]

/-- A valid webp request with an explicit quality. -/
def qWebp : Query :=
  { url := some "https://okpc.app/x", format := some "webp", quality := some "55" }

/-- Witness for C7: a webp request gets `image/webp` and a quality argument. -/
theorem format_resolution_and_content_type_witness :
    (handler envOK qWebp).1 =
      Response.image cacheControlHeader "image/webp" [137, 80, 78, 71] ∧
    (handler envOK qWebp).2.screenshotArgs = some ("webp", some 55) := by
  have h := format_resolution_and_content_type envOK qWebp "https://okpc.app/x"
    [137, 80, 78, 71] rfl (by decide) (by decide) rfl rfl rfl rfl rfl rfl rfl rfl
  exact ⟨h.1, h.2.2.2.2⟩

/-- C8: every successful render carries the exact cache header
`s-maxage=28800, stale-while-revalidate=86400`. -/
theorem cache_control_exact (env : Env) (q : Query) (u : String) (img : List Nat)
    (hu : q.url = some u) (hne : u ≠ "")
    (hm : matchesAllowed env.nodeEnv u = true)
    (h1 : env.launch = Except.ok ()) (h2 : env.newPage = Except.ok ())
    (h3 : env.setViewport = Except.ok ()) (h4 : env.goto = Except.ok ())
    (h5 : env.waitForNetworkIdle = Except.ok ())
    (h6 : env.waitForSelector = Except.ok ()) (hel : env.elementFound = true)
    (h7 : env.screenshot = Except.ok img) :
    (handler env q).1 =
      Response.image "s-maxage=28800, stale-while-revalidate=86400"
        ("image/" ++ resolveFormat q.format) img ∧
    cacheControlHeader = "s-maxage=28800, stale-while-revalidate=86400" := by
  have hcc : cacheControlHeader = "s-maxage=28800, stale-while-revalidate=86400" := by
    decide
  rw [handler_eq_mainBranch env q u hu hne hm,
    mainBranch_success env q img h1 h2 h3 h4 h5 h6 hel h7]
  exact ⟨by rw [hcc], hcc⟩

/-- Witness for C8. -/
theorem cache_control_exact_witness :
    (handler envOK qBasic).1 =
      Response.image "s-maxage=28800, stale-while-revalidate=86400" "image/png"
        [137, 80, 78, 71] :=
  (cache_control_exact envOK qBasic "https://okpc.app/x" [137, 80, 78, 71] rfl
    (by decide) (by decide) rfl rfl rfl rfl rfl rfl rfl rfl).1

/-! ## Structural lemmas about the allow-list matchers -/

lemma startsWithC_append (p r : List Nat) : startsWithC p (p ++ r) = true := by
  induction p with
  | nil => rfl
  | cons a ps ih => simp [startsWithC, ih]

lemma startsWithC_self (p : List Nat) : startsWithC p p = true := by
  have h := startsWithC_append p []
  simpa using h

lemma stripC_append (p l : List Nat) : stripC p (p ++ l) = some l := by
  induction p with
  | nil => rfl
  | cons a ps ih => simp [stripC, ih]

/-- If every character of a non-empty block satisfies `p` and `lit` is a
prefix of `rest`, then `X+lit` matches `block ++ rest`. -/
lemma repThen_append (p : Nat → Bool) (lit l rest : List Nat)
    (hl : l ≠ []) (hall : ∀ c ∈ l, p c = true)
    (hrest : startsWithC lit rest = true) :
    repThen p lit (l ++ rest) = true := by
  induction l with
  | nil => cases hl rfl
  | cons a t ih =>
    have ha : p a = true := hall a (List.mem_cons_self a t)
    have hstep : repThen p lit ((a :: t) ++ rest) =
        (p a && (startsWithC lit (t ++ rest) || repThen p lit (t ++ rest))) := rfl
    rw [hstep, ha, Bool.true_and, Bool.or_eq_true]
    cases t with
    | nil =>
      left
      exact hrest
    | cons b t2 =>
      right
      exact ih (by simp) (fun c hc => hall c (List.mem_cons_of_mem a hc))

/-- ASCII case folding preserves the `[\w-]` class. -/
lemma isWordDash_lowerCode (n : Nat) (h : isWordDash n = true) :
    isWordDash (lowerCode n) = true := by
  unfold isWordDash at h
  unfold isWordDash lowerCode
  simp only [Bool.or_eq_true, Bool.and_eq_true, decide_eq_true_eq] at h ⊢
  split
  · omega
  · omega

/-- Any non-empty single-level `[\w-]+` subdomain of `okpc.app` with a path
is accepted by the okpc pattern. -/
lemma okpc_subdomain_accepted (sub : String) (hne : sub ≠ "")
    (hchars : ∀ c ∈ sub.data, isWordDash c.toNat = true) :
    Pattern.test Pattern.okpc (foldCodes ("https://" ++ sub ++ ".okpc.app/")) = true := by
  have e1 : "https://".data.map (fun c => lowerCode c.toNat) = strCodes "https://" := by
    decide
  have e2 : ".okpc.app/".data.map (fun c => lowerCode c.toNat) = strCodes ".okpc.app/" := by
    decide
  have hfold : foldCodes ("https://" ++ sub ++ ".okpc.app/") =
      strCodes "https://" ++
        (sub.data.map (fun c => lowerCode c.toNat) ++ strCodes ".okpc.app/") := by
    unfold foldCodes
    rw [String.data_append, String.data_append, List.map_append, List.map_append,
      e1, e2, List.append_assoc]
  rw [hfold]
  simp only [Pattern.test]
  rw [stripC_append]
  simp only
  rw [Bool.or_eq_true]
  right
  apply repThen_append
  · intro hnil
    apply hne
    apply String.ext
    have hdata : sub.data = [] := by
      cases hd : sub.data with
      | nil => rfl
      | cons c cs => rw [hd] at hnil; cases hnil
    rw [hdata]
  · intro c hc
    rcases List.mem_map.mp hc with ⟨x, hx, rfl⟩
    exact isWordDash_lowerCode _ (hchars x hx)
  · exact startsWithC_self _

/-- The allow-list check as an explicit boolean combination of the three
pattern tests. -/
lemma matchesAllowed_eq_or (nodeEnv url : String) :
    matchesAllowed nodeEnv url =
      ([Pattern.okpc, Pattern.vercel].any (fun p => Pattern.test p (foldCodes url)) ||
        (decide (nodeEnv ≠ "production") && Pattern.test Pattern.localhost (foldCodes url))) := by
  unfold matchesAllowed allowedHostnames
  by_cases hp : nodeEnv = "production"
  · rw [if_neg (by simp [hp])]
    simp [hp]
  · rw [if_pos (by simp [hp])]
    simp [hp, Bool.or_assoc]

/-- C10: every allow-list pattern requires a `/` right after the host, so
hosts without a path fail validation; matching depends only on the
ASCII-case-folded characters; and any non-empty single-level `[\w-]+`
subdomain of `okpc.app`, as well as the bare apex host with a path, is
accepted in every environment. -/
theorem allowlist_pattern_shape (env : Env) (sub s t : String)
    (hsub : sub ≠ "")
    (hchars : ∀ c ∈ sub.data, isWordDash c.toNat = true)
    (hfold : foldCodes s = foldCodes t) :
    matchesAllowed env.nodeEnv "https://okpc.app" = false ∧
    Pattern.test Pattern.okpc (foldCodes "https://studio.okpc.app") = false ∧
    Pattern.test Pattern.vercel (foldCodes "https://my-okpc.vercel.app") = false ∧
    Pattern.test Pattern.localhost (foldCodes "http://localhost") = false ∧
    Pattern.test Pattern.localhost (foldCodes "http://localhost:3000") = false ∧
    matchesAllowed env.nodeEnv s = matchesAllowed env.nodeEnv t ∧
    matchesAllowed env.nodeEnv ("https://" ++ sub ++ ".okpc.app/") = true ∧
    matchesAllowed env.nodeEnv "https://okpc.app/" = true ∧
    matchesAllowed env.nodeEnv "https://STUDIO.OKPC.APP/page" = true := by
  refine ⟨?_, by decide, by decide, by decide, by decide, ?_, ?_, ?_, ?_⟩
  · rw [matchesAllowed_eq_or]
    have hA : [Pattern.okpc, Pattern.vercel].any
        (fun p => Pattern.test p (foldCodes "https://okpc.app")) = false := by decide
    have hB : Pattern.test Pattern.localhost (foldCodes "https://okpc.app") = false := by
      decide
    rw [hA, hB]
    simp
  · unfold matchesAllowed
    rw [hfold]
  · rw [matchesAllowed_eq_or]
    have hok := okpc_subdomain_accepted sub hsub hchars
    simp [hok]
  · rw [matchesAllowed_eq_or]
    have hA : [Pattern.okpc, Pattern.vercel].any
        (fun p => Pattern.test p (foldCodes "https://okpc.app/")) = true := by decide
    rw [hA]
    simp
  · rw [matchesAllowed_eq_or]
    have hA : [Pattern.okpc, Pattern.vercel].any
        (fun p => Pattern.test p (foldCodes "https://STUDIO.OKPC.APP/page")) = true := by
      decide
    rw [hA]
    simp

/-- A production environment. -/
def envProd : Env := { envOK with nodeEnv := "production" }

/-- Witness for C10: a concrete subdomain is accepted in production, and a
fully uppercased url validates exactly like its lowercase form. -/
theorem allowlist_pattern_shape_witness :
    matchesAllowed "production" ("https://" ++ "studio" ++ ".okpc.app/") = true ∧
    matchesAllowed "production" "HTTPS://OKPC.APP/x" =
      matchesAllowed "production" "https://okpc.app/x" ∧
    matchesAllowed "production" "https://okpc.app" = false := by
  have h := allowlist_pattern_shape envProd "studio" "HTTPS://OKPC.APP/x"
    "https://okpc.app/x" (by decide) (by decide) (by decide)
  exact ⟨h.2.2.2.2.2.2.1, h.2.2.2.2.2.1, h.1⟩

end Opengraph
